import Mathlib

/-!
Verification of the Perseval backend against its specification.

The definitions below are a shallow embedding of the Python source:
* `src/backend/services/trust.py` (score aggregation),
* `src/backend/app/repositories/submissions.py` and the submission routes in
  `src/backend/api/routes.py` (submission workflow),
* `src/backend/app/repositories/votes.py` (voting ledger),
* `src/backend/app/repositories/cache.py` (TTL reputation cache),
* `src/backend/app/core/rate_limiter.py`, `src/backend/rate_limiter.py`,
  `src/backend/app/repositories/feedback.py` (rate limiting).

Python floats are modelled as real numbers where transcendental functions
occur (`math.log10`) and as rationals where the values are merely stored and
compared. The external Supabase store is modelled as explicit state (lists of
rows) with the atomic upsert/select/delete semantics the code relies on.
-/

namespace Perseval

/-! ### String helpers shared by several components

Python string primitives are embedded over character lists so that concrete
instances reduce inside the kernel. -/

/-- Python's `handle.lstrip("@")`: drop every leading `@`. -/
def strip_at (s : String) : String :=
  String.mk (s.toList.dropWhile (fun c => c == '@'))

/-- Python's `str.lower()` for the ASCII handles involved. -/
def lower_str (s : String) : String :=
  String.mk (s.toList.map Char.toLower)

/-- Python's `str.strip()`: remove leading and trailing whitespace. -/
def trim_str (s : String) : String :=
  String.mk
    (((s.toList.dropWhile Char.isWhitespace).reverse.dropWhile
        Char.isWhitespace).reverse)

/-! ### ScoreAggregator — src/backend/services/trust.py -/

/-- Value assigned to one classified post in `compute_message_history_score`:
`scam` maps to 0.0, `not_scam` to 1.0, anything else (`uncertain`) to 0.5. -/
noncomputable def post_score (label : String) : ℝ :=
  if label = "scam" then 0
  else if label = "not_scam" then 1
  else 0.5

/-- A post is meaningful when `text and text.strip()` is truthy in Python,
i.e. the text is non-empty after stripping whitespace. -/
def meaningful (t : String) : Bool :=
  !(trim_str t == "")

/-- Embedding of `compute_message_history_score` (trust.py lines 36-55).
The scam classifier collaborator is the function `classify`, returning the
label string of its `ScamPrediction`. -/
noncomputable def compute_message_history_score
    (classify : String → String) (sample_posts : List String) : ℝ :=
  let posts := sample_posts.filter meaningful
  if posts = [] then 0.5
  else (posts.map (fun t => post_score (classify t))).sum / posts.length

/-- Embedding of `compute_followers_score` (trust.py lines 58-77).
Python's `not followers or followers <= 0` is true exactly when `followers`
is `None` or `followers ≤ 0`. -/
noncomputable def compute_followers_score
    (followers following : Option ℤ) : ℝ :=
  match followers with
  | none => 0.5
  | some f =>
    if f ≤ 0 then 0.5
    else
      let log_f : ℝ := Real.logb 10 ((max f 1 : ℤ) : ℝ)
      let followers_size_score : ℝ := max 0 (min 1 ((log_f - 2) / 3))
      let ratio_score : ℝ :=
        match following with
        | none => 1
        | some g =>
          let rat : ℝ := (g : ℝ) / (f : ℝ)
          if rat > 1 then max 0 (1 - (rat - 1)) else 1
      0.7 * followers_size_score + 0.3 * ratio_score

/-- The ad-disclosure markers searched for (case-insensitively). -/
def markers : List String := ["#ad", "#sponsored", "paid partnership"]

/-- Whether a lowercased caption contains one of the disclosure markers
(Python `any(marker in normalized for marker in markers)`). -/
def has_marker (raw : String) : Bool :=
  markers.any (fun m => decide (m.toList <:+: (lower_str raw).toList))

/-- Embedding of `compute_disclosure_score` (trust.py lines 80-106).
`if not raw: continue` skips `None` and empty captions. -/
noncomputable def compute_disclosure_score
    (sample_posts : List (Option String)) : ℝ :=
  if sample_posts = [] then 0.3
  else
    let counted := sample_posts.filterMap id |>.filter (fun r => !(r == ""))
    let total := counted.length
    let disclosures := (counted.filter has_marker).length
    if total = 0 then 0.3
    else
      let rat : ℝ := (disclosures : ℝ) / (total : ℝ)
      if rat ≥ 0.6 then 1.0
      else if rat > 0 then 0.6
      else 0.3

/-- Embedding of `combine_trust_score` (trust.py lines 109-120). -/
noncomputable def combine_trust_score
    (message_history_score followers_score
     web_reputation_score disclosure_score : ℝ) : ℝ :=
  0.3 * message_history_score
    + 0.15 * followers_score
    + 0.4 * web_reputation_score
    + 0.15 * disclosure_score

/-- Embedding of `label_from_trust_score` (trust.py lines 123-128). -/
noncomputable def label_from_trust_score (score : ℝ) : String :=
  if score ≥ 0.75 then "high"
  else if score ≥ 0.4 then "medium"
  else "low"

/-- The composite trust score computed by `build_influencer_trust_response`
(trust.py lines 145-153): the four sub-scores combined, where the web
reputation sub-score `w` comes from the ReputationJudge collaborator. -/
noncomputable def influencer_trust_score
    (classify : String → String) (sample_posts : List String)
    (followers following : Option ℤ) (w : ℝ) : ℝ :=
  combine_trust_score
    (compute_message_history_score classify sample_posts)
    (compute_followers_score followers following)
    w
    (compute_disclosure_score (sample_posts.map some))

/-! ### Bounds helper lemmas -/

lemma post_score_nonneg (label : String) : 0 ≤ post_score label := by
  unfold post_score
  split <;> norm_num
  split <;> norm_num

lemma post_score_le_one (label : String) : post_score label ≤ 1 := by
  unfold post_score
  split <;> norm_num
  split <;> norm_num

lemma sum_le_length_of_forall_le_one (l : List ℝ)
    (h : ∀ x ∈ l, x ≤ 1) : l.sum ≤ l.length := by
  induction l with
  | nil => simp
  | cons a t ih =>
    simp only [List.sum_cons, List.length_cons]
    have ha := h a (List.mem_cons_self a t)
    have ht := ih (fun x hx => h x (List.mem_cons_of_mem a hx))
    push_cast
    linarith

lemma sum_nonneg_of_forall_nonneg (l : List ℝ)
    (h : ∀ x ∈ l, 0 ≤ x) : 0 ≤ l.sum := by
  induction l with
  | nil => simp
  | cons a t ih =>
    simp only [List.sum_cons]
    have ha := h a (List.mem_cons_self a t)
    have ht := ih (fun x hx => h x (List.mem_cons_of_mem a hx))
    linarith

lemma compute_message_history_score_mem_Icc
    (classify : String → String) (sample_posts : List String) :
    compute_message_history_score classify sample_posts ∈
      Set.Icc (0 : ℝ) 1 := by
  unfold compute_message_history_score
  set posts := sample_posts.filter meaningful with hposts
  by_cases hnil : posts = []
  · simp [hnil]; norm_num
  · simp only [hnil, if_false]
    have hlen : 0 < (posts.length : ℝ) := by
      have : posts.length ≠ 0 := by
        simpa [List.length_eq_zero] using hnil
      positivity
    set l := posts.map (fun t => post_score (classify t)) with hl
    have hlower : 0 ≤ l.sum := by
      apply sum_nonneg_of_forall_nonneg
      intro x hx
      rw [hl] at hx
      obtain ⟨t, _, rfl⟩ := List.mem_map.mp hx
      exact post_score_nonneg _
    have hupper : l.sum ≤ posts.length := by
      have := sum_le_length_of_forall_le_one l (by
        intro x hx
        rw [hl] at hx
        obtain ⟨t, _, rfl⟩ := List.mem_map.mp hx
        exact post_score_le_one _)
      simpa [hl] using this
    constructor
    · exact div_nonneg hlower (le_of_lt hlen)
    · rw [div_le_one hlen]
      exact hupper

lemma compute_followers_score_mem_Icc (followers following : Option ℤ) :
    compute_followers_score followers following ∈ Set.Icc (0 : ℝ) 1 := by
  unfold compute_followers_score
  match followers with
  | none => norm_num
  | some f =>
    by_cases hf : f ≤ 0
    · simp [hf]; norm_num
    · simp only [hf, if_false]
      set log_f : ℝ := Real.logb 10 ((max f 1 : ℤ) : ℝ) with hlf
      have hs₀ : (0 : ℝ) ≤ max 0 (min 1 ((log_f - 2) / 3)) := le_max_left _ _
      have hs₁ : max 0 (min 1 ((log_f - 2) / 3)) ≤ 1 :=
        max_le (by norm_num) (min_le_left _ _)
      match following with
      | none =>
        constructor <;> simp only <;> nlinarith
      | some g =>
        set rat : ℝ := (g : ℝ) / (f : ℝ) with hrat
        by_cases hr : rat > 1
        · have hr₀ : (0 : ℝ) ≤ max 0 (1 - (rat - 1)) := le_max_left _ _
          have hr₁ : max 0 (1 - (rat - 1)) ≤ 1 :=
            max_le (by norm_num) (by linarith)
          constructor <;> simp only [hr, if_true] <;> nlinarith
        · constructor <;> simp only [hr, if_false] <;> nlinarith

lemma compute_disclosure_score_mem_Icc (sample_posts : List (Option String)) :
    compute_disclosure_score sample_posts ∈ Set.Icc (0 : ℝ) 1 := by
  unfold compute_disclosure_score
  split
  · norm_num
  · simp only
    split
    · norm_num
    · split
      · norm_num
      · split <;> norm_num

lemma combine_trust_score_mem_Icc (mh fs w ds : ℝ)
    (hmh : mh ∈ Set.Icc (0 : ℝ) 1) (hfs : fs ∈ Set.Icc (0 : ℝ) 1)
    (hw : w ∈ Set.Icc (0 : ℝ) 1) (hds : ds ∈ Set.Icc (0 : ℝ) 1) :
    combine_trust_score mh fs w ds ∈ Set.Icc (0 : ℝ) 1 := by
  obtain ⟨h1, h2⟩ := hmh
  obtain ⟨h3, h4⟩ := hfs
  obtain ⟨h5, h6⟩ := hw
  obtain ⟨h7, h8⟩ := hds
  unfold combine_trust_score
  constructor <;> nlinarith

/-! ### Claim theorems for the ScoreAggregator -/

/-- C3: for every list of posts, every followers/following count, and every
ReputationJudge reliability `w` in `[0,1]`, each of the four sub-scores
(message history, followers, disclosure, web reputation given by `w`) and the
composite trust score combining them lie in `[0,1]`. -/
theorem c3_all_scores_in_unit_interval
    (classify : String → String) (sample_posts : List String)
    (disc_posts : List (Option String)) (followers following : Option ℤ)
    (w : ℝ) (hw0 : 0 ≤ w) (hw1 : w ≤ 1) :
    (0 ≤ compute_message_history_score classify sample_posts ∧
      compute_message_history_score classify sample_posts ≤ 1) ∧
    (0 ≤ compute_followers_score followers following ∧
      compute_followers_score followers following ≤ 1) ∧
    (0 ≤ compute_disclosure_score disc_posts ∧
      compute_disclosure_score disc_posts ≤ 1) ∧
    (0 ≤ influencer_trust_score classify sample_posts followers following w ∧
      influencer_trust_score classify sample_posts followers following w ≤ 1) := by
  have hmh := compute_message_history_score_mem_Icc classify sample_posts
  have hfs := compute_followers_score_mem_Icc followers following
  have hds := compute_disclosure_score_mem_Icc disc_posts
  have hds' := compute_disclosure_score_mem_Icc (sample_posts.map some)
  have hcomb := combine_trust_score_mem_Icc
    (compute_message_history_score classify sample_posts)
    (compute_followers_score followers following) w
    (compute_disclosure_score (sample_posts.map some))
    hmh hfs ⟨hw0, hw1⟩ hds'
  exact ⟨⟨hmh.1, hmh.2⟩, ⟨hfs.1, hfs.2⟩, ⟨hds.1, hds.2⟩, hcomb.1, hcomb.2⟩

/-- Witness for C3 at concrete inputs. -/
theorem c3_all_scores_in_unit_interval_witness :
    (0 ≤ compute_message_history_score (fun _ => "uncertain") ["hello"] ∧
      compute_message_history_score (fun _ => "uncertain") ["hello"] ≤ 1) ∧
    (0 ≤ compute_followers_score (some 10) none ∧
      compute_followers_score (some 10) none ≤ 1) ∧
    (0 ≤ compute_disclosure_score [some "hello"] ∧
      compute_disclosure_score [some "hello"] ≤ 1) ∧
    (0 ≤ influencer_trust_score (fun _ => "uncertain") ["hello"]
        (some 10) none (1 / 2) ∧
      influencer_trust_score (fun _ => "uncertain") ["hello"]
        (some 10) none (1 / 2) ≤ 1) :=
  c3_all_scores_in_unit_interval (fun _ => "uncertain") ["hello"]
    [some "hello"] (some 10) none (1 / 2) (by norm_num) (by norm_num)

/-- C9: `followersScore` returns 0.5 when followers is absent or nonpositive;
otherwise it is `0.7 * clamp((log10 followers - 2)/3, 0, 1) + 0.3 * ratioScore`
with `ratioScore = 1` when `following` is absent or `following ≤ followers`,
and `max 0 (1 - (following/followers - 1))` when `following > followers`; and
`followersScore(10000, 500) = 23/30 ≈ 0.7667`. -/
theorem c9_followers_score_spec :
    (∀ following : Option ℤ, compute_followers_score none following = 0.5) ∧
    (∀ (f : ℤ) (following : Option ℤ), f ≤ 0 →
      compute_followers_score (some f) following = 0.5) ∧
    (∀ f : ℤ, 0 < f →
      compute_followers_score (some f) none =
        0.7 * max 0 (min 1 ((Real.logb 10 (f : ℝ) - 2) / 3)) + 0.3 * 1) ∧
    (∀ f g : ℤ, 0 < f →
      compute_followers_score (some f) (some g) =
        0.7 * max 0 (min 1 ((Real.logb 10 (f : ℝ) - 2) / 3)) +
          0.3 * (if (g : ℝ) / (f : ℝ) > 1
            then max 0 (1 - ((g : ℝ) / (f : ℝ) - 1)) else 1)) ∧
    (compute_followers_score (some 10000) (some 500) = 23 / 30 ∧
      |compute_followers_score (some 10000) (some 500) - 0.7667| < 0.001) := by
  have hlog : Real.logb 10 ((10000 : ℝ)) = 4 := by
    have h : ((10000 : ℝ)) = 10 ^ (4 : ℕ) := by norm_num
    rw [h, Real.logb_pow, Real.logb_self_eq_one (by norm_num)]
    norm_num
  refine ⟨fun following => rfl, fun f following hf => ?_, fun f hf => ?_,
    fun f g hf => ?_, ?_⟩
  · simp [compute_followers_score, hf]
  · have hf' : ¬ f ≤ 0 := not_le.mpr hf
    have hmax : max f 1 = f := max_eq_left (by omega)
    simp only [compute_followers_score, hf', if_false, hmax]
  · have hf' : ¬ f ≤ 0 := not_le.mpr hf
    have hmax : max f 1 = f := max_eq_left (by omega)
    simp only [compute_followers_score, hf', if_false, hmax]
  · have hf' : ¬ (10000 : ℤ) ≤ 0 := by norm_num
    have hmax : max (10000 : ℤ) 1 = 10000 := by norm_num
    have hratio : ¬ ((500 : ℝ) / (10000 : ℝ) > 1) := by norm_num
    constructor
    · simp only [compute_followers_score, hf', if_false, hmax]
      push_cast
      rw [hlog]
      rw [if_neg hratio]
      norm_num
    · simp only [compute_followers_score, hf', if_false, hmax]
      push_cast
      rw [hlog]
      rw [if_neg hratio]
      rw [abs_lt]
      constructor <;> norm_num

/-- Witness for C9 at concrete inputs, including the absent-following case
with positive followers. -/
theorem c9_followers_score_spec_witness :
    compute_followers_score (some 0) (some 5) = 0.5 ∧
    compute_followers_score none none = 0.5 ∧
    compute_followers_score (some 100) none =
      0.7 * max 0 (min 1 ((Real.logb 10 ((100 : ℤ) : ℝ) - 2) / 3)) + 0.3 * 1 :=
  ⟨c9_followers_score_spec.2.1 0 (some 5) (by norm_num),
    c9_followers_score_spec.1 none,
    c9_followers_score_spec.2.2.1 100 (by norm_num)⟩

/-! ### SubmissionWorkflow — src/backend/app/repositories/submissions.py and
the submission routes of src/backend/api/routes.py -/

/-- Submission status values used by the workflow. -/
inductive Status where
  | pending
  | analyzing
  | approved
  | rejected
deriving DecidableEq, Repr

/-- Profile stats stored inside `analysis_data` by `analyze_submission`
(routes.py lines 1042-1050). -/
structure AnalysisStats where
  full_name : Option String
  bio : Option String
  followers : Option ℤ
  following : Option ℤ
  posts_count : Option ℤ
  is_verified : Bool
deriving DecidableEq, Repr

/-- Trust block stored inside `analysis_data` by `analyze_submission`
(routes.py lines 1051-1059). Scores are stored values, modelled as
rationals. -/
structure AnalysisTrust where
  trust_score : ℚ
  label : String
  message_history_score : ℚ
  followers_score : ℚ
  web_reputation_score : ℚ
  disclosure_score : ℚ
  notes : String
deriving DecidableEq, Repr

/-- The `analysis_data` JSON blob written by `analyze_submission`. -/
structure AnalysisData where
  stats : AnalysisStats
  trust : AnalysisTrust
deriving DecidableEq, Repr

/-- A row of the `influencer_submissions` table. Timestamps are abstract
integers. -/
structure Submission where
  id : String
  handle : String
  platform : String
  reason : Option String
  status : Status
  analysis_data : Option AnalysisData
  trust_score : Option ℚ
  analysis_error : Option String
  analysis_completed_at : Option ℤ
  reviewed_by : Option String
  reviewed_at : Option ℤ
  admin_notes : Option String
  rejection_reason : Option String
  submitter_ip_hash : String
  created_at : ℤ
  updated_at : ℤ
deriving DecidableEq, Repr

/-- Embedding of `update_submission_status` (submissions.py lines 187-231):
the update dict always contains `status`; `analysis_data` is written only when
supplied; `trust_score` together with `analysis_completed_at = now()` only when
a trust score is supplied; `analysis_error` only when supplied. All columns
not in the dict keep their stored values. -/
def update_submission_status (sub : Submission) (status : Status)
    (analysis_data : Option AnalysisData)
    (trust_score : Option ℚ)
    (analysis_error : Option String)
    (now : ℤ) : Submission :=
  let s := { sub with status := status }
  let s := match analysis_data with
    | some d => { s with analysis_data := some d }
    | none => s
  let s := match trust_score with
    | some t => { s with trust_score := some t, analysis_completed_at := some now }
    | none => s
  match analysis_error with
  | some e => { s with analysis_error := some e }
  | none => s

/-- Embedding of `review_submission` (submissions.py lines 234-276): the
update dict always contains `status`, `reviewed_by`, `reviewed_at = now()` and
`admin_notes` (even when `None`); `rejection_reason` is included only when it
is truthy (present and non-empty). -/
def review_submission (sub : Submission) (status : Status)
    (reviewed_by : String) (admin_notes : Option String)
    (rejection_reason : Option String) (now : ℤ) : Submission :=
  let s := { sub with
    status := status
    reviewed_by := some reviewed_by
    reviewed_at := some now
    admin_notes := admin_notes }
  match rejection_reason with
  | some r => if r ≠ "" then { s with rejection_reason := some r } else s
  | none => s

/-- Outcome of the trust-assessment pipeline invoked by the analysis route:
success with analysis data and trust score, failure with an `HTTPException`,
or failure with any other exception carrying a message. -/
inductive PipelineResult where
  | success (data : AnalysisData) (score : ℚ)
  | httpFailure
  | failure (msg : String)
deriving DecidableEq, Repr

/-- Errors surfaced by the analysis route. -/
inductive AnalyzeErr where
  | badStatus
  | httpFailure
  | upstream (msg : String)
deriving DecidableEq, Repr

/-- Embedding of the `analyze_submission` route (routes.py lines 1017-1101),
starting after the submission has been fetched. The route gates on
`status ∈ [pending, analyzing]`, sets `status=analyzing`, runs the pipeline,
and on success stores the results with `status=pending`. `resultStoreOk`
models whether that result-storing update reports success (`if not updated`);
when it fails the route raises HTTP 500, which its own `except HTTPException`
handler intercepts, storing `analysis_error="Analysis failed - HTTP error"`
with `status=pending` before re-raising. Exception-handler writes go through
`update_submission_status`, which swallows its own store errors, and are
modelled as taking effect. -/
def analyze_submission (sub : Submission) (res : PipelineResult)
    (resultStoreOk : Bool) (now : ℤ) : Except AnalyzeErr Unit × Submission :=
  if sub.status ≠ Status.pending ∧ sub.status ≠ Status.analyzing then
    (Except.error AnalyzeErr.badStatus, sub)
  else
    let s1 := update_submission_status sub Status.analyzing none none none now
    match res with
    | PipelineResult.success data score =>
      if resultStoreOk then
        (Except.ok (),
          update_submission_status s1 Status.pending (some data) (some score) none now)
      else
        (Except.error AnalyzeErr.httpFailure,
          update_submission_status s1 Status.pending none none
            (some "Analysis failed - HTTP error") now)
    | PipelineResult.httpFailure =>
      (Except.error AnalyzeErr.httpFailure,
        update_submission_status s1 Status.pending none none
          (some "Analysis failed - HTTP error") now)
    | PipelineResult.failure msg =>
      (Except.error (AnalyzeErr.upstream msg),
        update_submission_status s1 Status.pending none none
          (some (msg.take 500)) now)

/-- Errors surfaced by the review route. -/
inductive ReviewErr where
  | alreadyReviewed
  | needsAnalysis
deriving DecidableEq, Repr

/-- Embedding of the `review_influencer_submission` route (routes.py lines
1131-1242), starting after the submission has been fetched. The route rejects
already-terminal submissions, then commits the review via `review_submission`,
and only afterwards — when the decision is `approved` with
`add_to_marketplace` — checks `submission.analysis_data`, raising HTTP 400
("run analysis first") when it is absent. The marketplace publication itself
is best-effort and does not change the submission row. -/
def review_influencer_submission (sub : Submission) (decision : Status)
    (admin_notes rejection_reason : Option String)
    (add_to_marketplace : Bool) (now : ℤ) :
    Except ReviewErr Unit × Submission :=
  if sub.status = Status.approved ∨ sub.status = Status.rejected then
    (Except.error ReviewErr.alreadyReviewed, sub)
  else
    let reviewed := review_submission sub decision "admin"
      admin_notes rejection_reason now
    if decision = Status.approved ∧ add_to_marketplace ∧
        sub.analysis_data = none then
      (Except.error ReviewErr.needsAnalysis, reviewed)
    else
      (Except.ok (), reviewed)

/-- Status written by `update_submission_status` is always the status
argument, regardless of which optional fields are supplied. -/
lemma update_submission_status_status (sub : Submission) (st : Status)
    (d : Option AnalysisData) (t : Option ℚ) (e : Option String) (n : ℤ) :
    (update_submission_status sub st d t e n).status = st := by
  unfold update_submission_status
  cases d <;> cases t <;> cases e <;> rfl

/-- The error written by `update_submission_status` when one is supplied. -/
lemma update_submission_status_error (sub : Submission) (st : Status)
    (d : Option AnalysisData) (t : Option ℚ) (e : String) (n : ℤ) :
    (update_submission_status sub st d t (some e) n).analysis_error = some e := by
  unfold update_submission_status
  cases d <;> cases t <;> rfl

/-- A freshly created pending submission used as a concrete input. -/
def sampleSubmission : Submission :=
  { id := "s1"
    handle := "alice"
    platform := "instagram"
    reason := none
    status := Status.pending
    analysis_data := none
    trust_score := none
    analysis_error := none
    analysis_completed_at := none
    reviewed_by := none
    reviewed_at := none
    admin_notes := none
    rejection_reason := none
    submitter_ip_hash := "iphash"
    created_at := 0
    updated_at := 0 }

/-- C1 counterexample: reviewing `sampleSubmission` (pending, no
`analysis_data`) with decision `approved` and `add_to_marketplace=True` does
fail with the run-analysis-first error, but the submission does not keep its
previous state: its status is `approved` afterwards. -/
theorem c1_counterexample :
    (review_influencer_submission sampleSubmission Status.approved
        none none true 5).1 = Except.error ReviewErr.needsAnalysis ∧
    (review_influencer_submission sampleSubmission Status.approved
        none none true 5).2.status = Status.approved ∧
    (review_influencer_submission sampleSubmission Status.approved
        none none true 5).2 ≠ sampleSubmission := by
  refine ⟨rfl, rfl, ?_⟩
  intro h
  have := congrArg Submission.status h
  simp [review_influencer_submission, review_submission, sampleSubmission] at this

/-- C1 (amended): for every non-terminal submission without `analysis_data`,
a review call with decision `approved` and `add_to_marketplace=True` fails
with the ValidationError instructing the caller to run analysis first, but
only after the review has been committed: the resulting row is the reviewed
row, whose status is `approved` (state changed on error, not rolled back). -/
theorem c1_review_error_after_commit (sub : Submission)
    (admin_notes : Option String) (now : ℤ)
    (h1 : sub.status ≠ Status.approved) (h2 : sub.status ≠ Status.rejected)
    (h3 : sub.analysis_data = none) :
    review_influencer_submission sub Status.approved admin_notes none true now
      = (Except.error ReviewErr.needsAnalysis,
          review_submission sub Status.approved "admin" admin_notes none now) ∧
    (review_influencer_submission sub Status.approved
        admin_notes none true now).2.status = Status.approved := by
  have hguard : ¬ (sub.status = Status.approved ∨ sub.status = Status.rejected) := by
    rintro (h | h)
    · exact h1 h
    · exact h2 h
  constructor
  · simp [review_influencer_submission, hguard, h3]
  · simp [review_influencer_submission, hguard, h3, review_submission]

/-- Witness for the amended C1 at a concrete input. -/
theorem c1_review_error_after_commit_witness :
    review_influencer_submission sampleSubmission Status.approved
        (some "looks fine") none true 7
      = (Except.error ReviewErr.needsAnalysis,
          review_submission sampleSubmission Status.approved "admin"
            (some "looks fine") none 7) ∧
    (review_influencer_submission sampleSubmission Status.approved
        (some "looks fine") none true 7).2.status = Status.approved :=
  c1_review_error_after_commit sampleSubmission (some "looks fine") 7
    (by decide) (by decide) rfl

/-- C2: for every submission with status pending or analyzing, after the
analysis route completes — pipeline success, pipeline failure, or failure of
the result-storing update — the submission's status is `pending` (never left
`analyzing`), and on a generic failure the error message truncated to 500
characters is stored in `analysis_error`. -/
theorem c2_analysis_returns_to_pending (sub : Submission)
    (res : PipelineResult) (resultStoreOk : Bool) (now : ℤ)
    (h : sub.status = Status.pending ∨ sub.status = Status.analyzing) :
    (analyze_submission sub res resultStoreOk now).2.status = Status.pending ∧
    (∀ msg, res = PipelineResult.failure msg →
      (analyze_submission sub res resultStoreOk now).2.analysis_error
        = some (msg.take 500)) ∧
    (res = PipelineResult.httpFailure →
      (analyze_submission sub res resultStoreOk now).2.analysis_error
        = some "Analysis failed - HTTP error") := by
  have hguard : ¬ (sub.status ≠ Status.pending ∧ sub.status ≠ Status.analyzing) := by
    rcases h with h | h <;> simp [h]
  refine ⟨?_, ?_, ?_⟩
  · unfold analyze_submission
    rw [if_neg hguard]
    cases res with
    | success data score =>
      cases resultStoreOk <;>
        simp only [Bool.false_eq_true, if_false, if_true] <;>
        exact update_submission_status_status ..
    | httpFailure => exact update_submission_status_status ..
    | failure msg => exact update_submission_status_status ..
  · intro msg hres
    subst hres
    unfold analyze_submission
    rw [if_neg hguard]
    exact update_submission_status_error ..
  · intro hres
    subst hres
    unfold analyze_submission
    rw [if_neg hguard]
    exact update_submission_status_error ..

/-- Witness for C2 at a concrete input. -/
theorem c2_analysis_returns_to_pending_witness :
    (analyze_submission sampleSubmission (PipelineResult.failure "boom")
        true 3).2.status = Status.pending ∧
    (analyze_submission sampleSubmission (PipelineResult.failure "boom")
        true 3).2.analysis_error = some ("boom".take 500) := by
  have h := c2_analysis_returns_to_pending sampleSubmission
    (PipelineResult.failure "boom") true 3 (Or.inl rfl)
  exact ⟨h.1, h.2.1 "boom" rfl⟩

/-- C10: `update_submission_status` writes only the fields it is given. With
a new status and only an `analysis_error` (the failed-analysis path) every
other field is unchanged; `trust_score` and `analysis_completed_at` are
written only when a trust score is supplied; and the analysis route's failure
path preserves previously stored `analysis_data` and `trust_score`. -/
theorem c10_update_writes_only_given_fields (sub : Submission) (st : Status)
    (e : String) (n : ℤ) :
    ((update_submission_status sub st none none (some e) n)
        = { sub with status := st, analysis_error := some e }) ∧
    (∀ (d : Option AnalysisData) (err : Option String),
      (update_submission_status sub st d none err n).trust_score
          = sub.trust_score ∧
      (update_submission_status sub st d none err n).analysis_completed_at
          = sub.analysis_completed_at) ∧
    (∀ (msg : String) (ok : Bool) (now : ℤ),
      (analyze_submission sub (PipelineResult.failure msg) ok now).2.analysis_data
          = sub.analysis_data ∧
      (analyze_submission sub (PipelineResult.failure msg) ok now).2.trust_score
          = sub.trust_score) := by
  refine ⟨rfl, ?_, ?_⟩
  · intro d err
    unfold update_submission_status
    cases d <;> cases err <;> exact ⟨rfl, rfl⟩
  · intro msg ok now
    unfold analyze_submission
    by_cases hguard : sub.status ≠ Status.pending ∧ sub.status ≠ Status.analyzing
    · rw [if_pos hguard]
      exact ⟨rfl, rfl⟩
    · rw [if_neg hguard]
      exact ⟨rfl, rfl⟩

/-! ### VotingLedger — src/backend/app/repositories/votes.py -/

/-- A row of the `influencer_votes` table. -/
structure VoteRow where
  influencer_handle : String
  influencer_platform : String
  vote_type : String
  voter_ip_hash : String
  comment : Option String
deriving DecidableEq, Repr

/-- The conflict key declared by `submit_vote`'s upsert:
`influencer_handle, influencer_platform, voter_ip_hash`. -/
def voteKey (r : VoteRow) : String × String × String :=
  (r.influencer_handle, r.influencer_platform, r.voter_ip_hash)

/-- Whether two rows collide on the upsert conflict key. -/
def sameVoteKey (a b : VoteRow) : Bool :=
  decide (voteKey a = voteKey b)

/-- The store's atomic upsert on the vote conflict key (Store collaborator
contract): an existing row with the same key is overwritten in place,
otherwise the row is inserted. -/
def upsertVote (store : List VoteRow) (row : VoteRow) : List VoteRow :=
  if store.any (sameVoteKey row) then
    store.map (fun r => if sameVoteKey row r then row else r)
  else
    store ++ [row]

/-- Embedding of `submit_vote` (votes.py lines 47-94): builds the row with
the `@`-stripped handle and upserts it on
`(influencer_handle, influencer_platform, voter_ip_hash)`. -/
def submit_vote (store : List VoteRow)
    (handle platform vote_type ip : String) (comment : Option String) :
    List VoteRow :=
  upsertVote store
    { influencer_handle := strip_at handle
      influencer_platform := platform
      vote_type := vote_type
      voter_ip_hash := ip
      comment := comment }

/-- Vote-count statistics derived by `get_vote_stats` (votes.py lines
128-189). The `user_trust_score` field is delegated to the external
`calculate_user_trust_score` database function and is not modelled. -/
structure VoteStatsCounts where
  trust_votes : ℕ
  distrust_votes : ℕ
  total_votes : ℕ
deriving DecidableEq, Repr

/-- Embedding of the counting part of `get_vote_stats`: select the rows for
the `@`-stripped handle and platform, partition by `vote_type`, and count. -/
def get_vote_stats (store : List VoteRow) (handle platform : String) :
    VoteStatsCounts :=
  let rows := store.filter (fun r =>
    r.influencer_handle == strip_at handle &&
      r.influencer_platform == platform)
  { trust_votes := (rows.filter (fun r => r.vote_type == "trust")).length
    distrust_votes := (rows.filter (fun r => r.vote_type == "distrust")).length
    total_votes := rows.length }

/-- Number of votes a store holds for one conflict key. -/
def countVotesForKey (store : List VoteRow) (k : String × String × String) :
    ℕ :=
  store.countP (fun r => decide (voteKey r = k))

/-- The vote-ledger invariant: at most one vote per
(entity key, voter identity). -/
def atMostOneVotePerVoter (store : List VoteRow) : Prop :=
  ∀ k, countVotesForKey store k ≤ 1

/-- Row matching used by `delete_vote`'s three `.eq` filters. -/
def voteMatches (handle platform ip : String) (r : VoteRow) : Bool :=
  r.influencer_handle == strip_at handle &&
    r.influencer_platform == platform &&
    r.voter_ip_hash == ip

/-- Embedding of `delete_vote` (votes.py lines 255-279). The store's delete
returns the list of deleted rows as `result.data` — a list, never Python's
`None`, so it is modelled as `some deleted`. The function returns
`result.data is not None`, i.e. `(some deleted).isSome`, together with the
remaining store. -/
def delete_vote (store : List VoteRow) (handle platform ip : String) :
    Bool × List VoteRow :=
  let deleted := store.filter (voteMatches handle platform ip)
  let remaining := store.filter (fun r => !(voteMatches handle platform ip r))
  ((some deleted).isSome, remaining)

/-- Embedding of the `remove_vote` route (routes.py lines 1342-1379): when
`delete_vote` reports `False` the endpoint answers 404 ("No vote found to
remove"), otherwise it answers success. The returned Bool is `true` for the
success response and `false` for the 404. -/
def remove_vote_route (store : List VoteRow) (handle platform ip : String) :
    Bool × List VoteRow :=
  let result := delete_vote store handle platform ip
  if result.1 then (true, result.2) else (false, store)

/-! ### Claim theorems for the voting ledger -/

/-- C5: the ledger keeps at most one vote per (entity key, voter identity) —
`submit_vote` preserves the invariant — and submitting `trust` then
`distrust` for the same entity and voter yields vote stats
`trust_votes=0, distrust_votes=1, total_votes=1`, not 2. -/
theorem c5_vote_upsert_invariant :
    (∀ (store : List VoteRow) (handle platform vt ip : String)
        (c : Option String),
      atMostOneVotePerVoter store →
      atMostOneVotePerVoter (submit_vote store handle platform vt ip c)) ∧
    (∀ (handle platform ip : String) (c1 c2 : Option String),
      get_vote_stats
        (submit_vote (submit_vote [] handle platform "trust" ip c1)
          handle platform "distrust" ip c2) handle platform
        = { trust_votes := 0, distrust_votes := 1, total_votes := 1 }) := by
  constructor
  · intro store handle platform vt ip c hinv k
    set row : VoteRow :=
      { influencer_handle := strip_at handle
        influencer_platform := platform
        vote_type := vt
        voter_ip_hash := ip
        comment := c } with hrow
    show countVotesForKey (upsertVote store row) k ≤ 1
    unfold upsertVote
    by_cases hany : store.any (sameVoteKey row)
    · rw [if_pos hany]
      unfold countVotesForKey
      rw [List.countP_map]
      have hcongr : ∀ a ∈ store,
          ((fun r => decide (voteKey r = k)) ∘
              fun r => if sameVoteKey row r then row else r) a = true ↔
            decide (voteKey a = k) = true := by
        intro a _
        by_cases hs : sameVoteKey row a
        · have hk : voteKey row = voteKey a := of_decide_eq_true hs
          simp only [Function.comp, hs, if_true]
          rw [hk]
        · have hs' : sameVoteKey row a = false := by
            simpa using hs
          simp [Function.comp, hs']
      calc store.countP ((fun r => decide (voteKey r = k)) ∘
              fun r => if sameVoteKey row r then row else r)
          = store.countP (fun r => decide (voteKey r = k)) :=
            List.countP_congr hcongr
        _ ≤ 1 := hinv k
    · rw [if_neg hany]
      unfold countVotesForKey
      rw [List.countP_append]
      by_cases hk : voteKey row = k
      · have hzero : store.countP (fun r => decide (voteKey r = k)) = 0 := by
          rw [List.countP_eq_zero]
          intro r hr
          have hne := List.any_eq_false.mp (Bool.of_not_eq_true hany) r hr
          have hkne : voteKey row ≠ voteKey r := by
            intro h
            exact absurd (decide_eq_true h) (by simpa [sameVoteKey] using hne)
          simp only [decide_eq_true_eq]
          intro h
          exact hkne (by rw [h, hk])
        rw [hzero]
        calc 0 + List.countP (fun r => decide (voteKey r = k)) [row]
            = List.countP (fun r => decide (voteKey r = k)) [row] := by omega
          _ ≤ ([row] : List VoteRow).length := List.countP_le_length _
          _ = 1 := rfl
      · have hone : List.countP (fun r => decide (voteKey r = k)) [row] = 0 := by
          simp [List.countP, List.countP.go, hk]
        rw [hone]
        simpa using hinv k
  · intro handle platform ip c1 c2
    simp [submit_vote, upsertVote, get_vote_stats, sameVoteKey, voteKey,
      List.any, List.filter]

/-- Witness for C5 at a concrete input. -/
theorem c5_vote_upsert_invariant_witness :
    atMostOneVotePerVoter
      (submit_vote [] "alice" "instagram" "trust" "iphash" none) :=
  c5_vote_upsert_invariant.1 [] "alice" "instagram" "trust" "iphash" none
    (fun k => by simp [countVotesForKey])

/-- C7 (code bug): deleting a vote that does not exist reports success.
`delete_vote` returns `result.data is not None`, and the store's delete
returns the (possibly empty) list of deleted rows, never `None`; on an empty
store the function returns `true` and the `remove_vote` endpoint answers with
the success message instead of the 404 "No vote found to remove", for the
first and every repeated call. -/
theorem c7_delete_missing_vote_reports_success :
    delete_vote [] "alice" "instagram" "iphash" = (true, []) ∧
    remove_vote_route [] "alice" "instagram" "iphash" = (true, []) ∧
    (∀ (store : List VoteRow) (handle platform ip : String),
      (delete_vote store handle platform ip).1 = true) := by
  refine ⟨rfl, rfl, ?_⟩
  intro store handle platform ip
  rfl

/-! ### ReputationCache — src/backend/app/repositories/cache.py -/

/-- Cache TTL from cache.py. Time is modelled in days. -/
def CACHE_EXPIRATION_DAYS : ℤ := 7

/-- Embedding of `_normalize_handle`: strip leading `@`, lowercase. -/
def normalize_handle (h : String) : String :=
  lower_str (strip_at h)

/-- Embedding of `_is_expired`: `now - updated_at > timedelta(days=7)`. -/
def is_expired (now updated_at : ℤ) : Bool :=
  decide (now - updated_at > CACHE_EXPIRATION_DAYS)

/-- A row of the `influencer_cache` table, with payload type `α`. -/
structure CacheRecord (α : Type) where
  handle : String
  platform : String
  analysis_data : α
  updated_at : ℤ

/-- One step of selecting the most recently updated record (the store's
`order by updated_at desc` + `limit 1`). -/
def pickLatest {α : Type} (best r : CacheRecord α) : CacheRecord α :=
  if r.updated_at > best.updated_at then r else best

/-- The first row of the query ordered by `updated_at` descending. -/
def latestOf {α : Type} : List (CacheRecord α) → Option (CacheRecord α)
  | [] => none
  | x :: xs => some (xs.foldl pickLatest x)

/-- Whether a cache row matches the lookup filters of
`get_cached_influencer`. -/
def cacheMatches {α : Type} (handle platform : String) (r : CacheRecord α) :
    Bool :=
  r.handle == normalize_handle handle && r.platform == platform

/-- Embedding of `_get_latest_record` + `get_cached_influencer` (cache.py
lines 22-49): filter by normalized handle and platform, take the most
recently updated row, and treat it as absent when expired. -/
def get_cached_influencer {α : Type} (store : List (CacheRecord α))
    (handle platform : String) (now : ℤ) : Option α :=
  match latestOf (store.filter (cacheMatches handle platform)) with
  | none => none
  | some record =>
    if is_expired now record.updated_at then none
    else some record.analysis_data

/-- The store's atomic upsert on the cache conflict key
`(handle, platform)` (Store collaborator contract). -/
def upsertCache {α : Type} (store : List (CacheRecord α))
    (row : CacheRecord α) : List (CacheRecord α) :=
  if store.any (fun r => r.handle == row.handle && r.platform == row.platform)
  then
    store.map (fun r =>
      if r.handle == row.handle && r.platform == row.platform then row else r)
  else
    store ++ [row]

/-- Embedding of `cache_influencer` (cache.py lines 52-71): upsert on
`(handle, platform)` with the normalized handle and `updated_at = now`. -/
def cache_influencer {α : Type} (store : List (CacheRecord α))
    (handle platform : String) (analysis_data : α) (now : ℤ) :
    List (CacheRecord α) :=
  upsertCache store
    { handle := normalize_handle handle
      platform := platform
      analysis_data := analysis_data
      updated_at := now }

lemma foldl_pickLatest_mem {α : Type} (xs : List (CacheRecord α))
    (x : CacheRecord α) : xs.foldl pickLatest x ∈ x :: xs := by
  induction xs generalizing x with
  | nil => simp
  | cons y ys ih =>
    rw [List.foldl_cons]
    have h := ih (pickLatest x y)
    unfold pickLatest at h ⊢
    by_cases hy : y.updated_at > x.updated_at
    · rw [if_pos hy] at h ⊢
      exact List.mem_cons_of_mem x h
    · rw [if_neg hy] at h ⊢
      rcases List.mem_cons.mp h with h | h
      · exact List.mem_cons.mpr (Or.inl h)
      · exact List.mem_cons_of_mem x (List.mem_cons_of_mem y h)

lemma latestOf_mem {α : Type} (l : List (CacheRecord α)) (x : CacheRecord α)
    (h : latestOf l = some x) : x ∈ l := by
  cases l with
  | nil => cases h
  | cons a as =>
    have hm := foldl_pickLatest_mem as a
    simp only [latestOf, Option.some_inj] at h
    rw [h] at hm
    exact hm

lemma foldl_pickLatest_const {α : Type} (xs : List (CacheRecord α))
    (x : CacheRecord α) (h : ∀ y ∈ xs, y = x) :
    xs.foldl pickLatest x = x := by
  induction xs with
  | nil => rfl
  | cons y ys ih =>
    have hy := h y (List.mem_cons_self _ _)
    rw [List.foldl_cons]
    have hpick : pickLatest x y = x := by
      unfold pickLatest
      rw [hy]
      simp
    rw [hpick]
    exact ih (fun z hz => h z (List.mem_cons.mpr (Or.inr hz)))

lemma latestOf_const {α : Type} (l : List (CacheRecord α))
    (x : CacheRecord α) (hne : l ≠ []) (h : ∀ y ∈ l, y = x) :
    latestOf l = some x := by
  cases l with
  | nil => exact absurd rfl hne
  | cons a as =>
    have ha := h a (List.mem_cons_self _ _)
    subst ha
    simp only [latestOf, Option.some_inj]
    exact foldl_pickLatest_const as a (fun y hy => h y (List.mem_cons.mpr (Or.inr hy)))

/-- After an upsert whose row satisfies the lookup predicate, and when the
lookup predicate forces a collision on the upsert key, every row the lookup
selects is the fresh row and at least one selected row exists. -/
lemma upsertCache_filter {α : Type} (store : List (CacheRecord α))
    (row : CacheRecord α) (p : CacheRecord α → Bool)
    (hrowp : p row = true)
    (himp : ∀ r, p r = true →
      (r.handle == row.handle && r.platform == row.platform) = true) :
    (∀ r ∈ (upsertCache store row).filter p, r = row) ∧
      (upsertCache store row).filter p ≠ [] := by
  unfold upsertCache
  by_cases hany :
      store.any (fun r => r.handle == row.handle && r.platform == row.platform)
  · rw [if_pos hany]
    constructor
    · intro r hr
      obtain ⟨hmem, hmatch⟩ := List.mem_filter.mp hr
      obtain ⟨a, hastore, hfa⟩ := List.mem_map.mp hmem
      by_cases hkey : (a.handle == row.handle && a.platform == row.platform)
      · rw [if_pos hkey] at hfa
        exact hfa.symm
      · rw [if_neg hkey] at hfa
        subst hfa
        exact absurd (himp a hmatch) hkey
    · intro hempty
      obtain ⟨a, hastore, hkey⟩ := List.any_eq_true.mp hany
      have hrowmem : row ∈ store.map (fun r =>
          if r.handle == row.handle && r.platform == row.platform then row
          else r) :=
        List.mem_map.mpr ⟨a, hastore, by rw [if_pos hkey]⟩
      have hmem : row ∈ (store.map (fun r =>
          if r.handle == row.handle && r.platform == row.platform then row
          else r)).filter p :=
        List.mem_filter.mpr ⟨hrowmem, hrowp⟩
      rw [hempty] at hmem
      cases hmem
  · rw [if_neg hany]
    constructor
    · intro r hr
      obtain ⟨hmem, hmatch⟩ := List.mem_filter.mp hr
      rcases List.mem_append.mp hmem with hmem | hmem
      · have hfalse := List.any_eq_false.mp (Bool.of_not_eq_true hany) r hmem
        exact absurd (himp r hmatch) hfalse
      · simpa using hmem
    · intro hempty
      have hrowmem : row ∈ store ++ [row] :=
        List.mem_append_right _ (by simp)
      have hmem : row ∈ (store ++ [row]).filter p :=
        List.mem_filter.mpr ⟨hrowmem, hrowp⟩
      rw [hempty] at hmem
      cases hmem

/-- C6: `put` then `get` with identically normalized keys returns the stored
assessment; and `get` returns absent whenever `now - updated_at` exceeds the
7-day TTL — in particular after advancing `now` by 8 days — regardless of
the rows physically present in the store. -/
theorem c6_cache_roundtrip_and_ttl {α : Type} (store : List (CacheRecord α))
    (h1 h2 platform : String) (v : α) (t now : ℤ)
    (hnorm : normalize_handle h1 = normalize_handle h2) :
    (get_cached_influencer (cache_influencer store h1 platform v t)
        h2 platform t = some v) ∧
    (now - t > CACHE_EXPIRATION_DAYS →
      get_cached_influencer (cache_influencer store h1 platform v t)
        h2 platform now = none) ∧
    (∀ s : List (CacheRecord α),
      (∀ r ∈ s, r.handle = normalize_handle h2 → r.platform = platform →
        now - r.updated_at > CACHE_EXPIRATION_DAYS) →
      get_cached_influencer s h2 platform now = none) := by
  have hpair := upsertCache_filter store
    ({ handle := normalize_handle h1, platform := platform,
       analysis_data := v, updated_at := t } : CacheRecord α)
    (cacheMatches h2 platform)
    (by simp [cacheMatches, hnorm])
    (by
      intro r hr
      simp only [cacheMatches, Bool.and_eq_true, beq_iff_eq] at hr ⊢
      exact ⟨by rw [hr.1, hnorm], hr.2⟩)
  obtain ⟨hall, hne⟩ := hpair
  have hlatest : latestOf ((cache_influencer store h1 platform v t).filter
      (cacheMatches h2 platform)) =
      some { handle := normalize_handle h1, platform := platform,
             analysis_data := v, updated_at := t } :=
    latestOf_const _ _ hne hall
  refine ⟨?_, ?_, ?_⟩
  · unfold get_cached_influencer
    rw [hlatest]
    show (if is_expired t t = true then none else some v) = some v
    have hexp : is_expired t t = false := by
      simp [is_expired, CACHE_EXPIRATION_DAYS]
    rw [hexp]
    simp
  · intro hgt
    unfold get_cached_influencer
    rw [hlatest]
    show (if is_expired now t = true then none else some v) = none
    have hexp : is_expired now t = true := by
      simp only [is_expired, decide_eq_true_eq]
      exact hgt
    rw [hexp]
    simp
  · intro s hs
    unfold get_cached_influencer
    cases hrec : latestOf (s.filter (cacheMatches h2 platform)) with
    | none => rfl
    | some record =>
      have hmem := latestOf_mem _ _ hrec
      obtain ⟨hmems, hmatch⟩ := List.mem_filter.mp hmem
      simp only [cacheMatches, Bool.and_eq_true, beq_iff_eq] at hmatch
      have hgt := hs record hmems hmatch.1 hmatch.2
      show (if is_expired now record.updated_at = true then none
        else some record.analysis_data) = none
      have hexp : is_expired now record.updated_at = true := by
        simp only [is_expired, decide_eq_true_eq]
        exact hgt
      rw [hexp]
      simp

/-- Witness for C6 at concrete inputs: put under a handle spelled with `@`
and mixed case, get under the bare lowercase handle, immediately and after 8
days. -/
theorem c6_cache_roundtrip_and_ttl_witness :
    (get_cached_influencer
        (cache_influencer ([] : List (CacheRecord String))
          "@Alice" "instagram" "assessment" 0) "alice" "instagram" 0
      = some "assessment") ∧
    (get_cached_influencer
        (cache_influencer ([] : List (CacheRecord String))
          "@Alice" "instagram" "assessment" 0) "alice" "instagram" 8
      = none) := by
  have h := c6_cache_roundtrip_and_ttl ([] : List (CacheRecord String))
    "@Alice" "alice" "instagram" "assessment" 0 8 (by decide)
  exact ⟨h.1, h.2.1 (by norm_num [CACHE_EXPIRATION_DAYS])⟩

/-! ### RateLimiter failure policies — src/backend/app/core/rate_limiter.py,
src/backend/rate_limiter.py, src/backend/app/repositories/votes.py,
src/backend/app/repositories/submissions.py,
src/backend/app/repositories/feedback.py with the route-level handling in
src/backend/api/routes.py -/

/-- Observed condition of the rate-limit backing store during one check. -/
inductive LimiterOutcome where
  | unavailable
  | failure
  | noData
  | result (allowed : Bool)
deriving DecidableEq, Repr

/-- How a rate-limited request is resolved at the HTTP boundary. -/
inductive GateResult where
  | allowed
  | tooManyRequests
  | serviceUnavailable
deriving DecidableEq, Repr

/-- Embedding of `check_rate_limit` in `backend/app/core/rate_limiter.py`
(lines 32-87), the limiter the live routes import for the analysis,
influencer, trust and admin endpoint groups: unavailable backend, empty RPC
result and unexpected errors all allow the request (fail open). -/
def core_check_rate_limit : LimiterOutcome → GateResult
  | LimiterOutcome.unavailable => GateResult.allowed
  | LimiterOutcome.failure => GateResult.allowed
  | LimiterOutcome.noData => GateResult.allowed
  | LimiterOutcome.result b =>
    if b then GateResult.allowed else GateResult.tooManyRequests

/-- Embedding of `check_rate_limit` in the superseded
`backend/rate_limiter.py` (lines 34-100): unavailable backend, empty RPC
result and unexpected errors all raise HTTP 503 (fail closed). -/
def legacy_check_rate_limit : LimiterOutcome → GateResult
  | LimiterOutcome.unavailable => GateResult.serviceUnavailable
  | LimiterOutcome.failure => GateResult.serviceUnavailable
  | LimiterOutcome.noData => GateResult.serviceUnavailable
  | LimiterOutcome.result b =>
    if b then GateResult.allowed else GateResult.tooManyRequests

/-- Embedding of `check_vote_rate_limit` (votes.py lines 22-44) combined with
its caller `vote_on_influencer` (routes.py lines 1269-1273): graceful
degradation allows on unavailability, missing data and errors; an explicit
`False` becomes HTTP 429. -/
def vote_rate_gate : LimiterOutcome → GateResult
  | LimiterOutcome.unavailable => GateResult.allowed
  | LimiterOutcome.failure => GateResult.allowed
  | LimiterOutcome.noData => GateResult.allowed
  | LimiterOutcome.result b =>
    if b then GateResult.allowed else GateResult.tooManyRequests

/-- Embedding of `check_submission_rate_limit` (submissions.py lines 22-44)
combined with its caller `submit_influencer` (routes.py lines 796-801): same
graceful degradation as the vote limiter. -/
def submission_rate_gate : LimiterOutcome → GateResult
  | LimiterOutcome.unavailable => GateResult.allowed
  | LimiterOutcome.failure => GateResult.allowed
  | LimiterOutcome.noData => GateResult.allowed
  | LimiterOutcome.result b =>
    if b then GateResult.allowed else GateResult.tooManyRequests

/-- Embedding of `check_feedback_rate_limit` (feedback.py lines 15-33)
combined with its caller `submit_feedback` (routes.py lines 694-710): the
repository raises on an unavailable client and on empty RPC data, and lets
RPC exceptions propagate; the route turns every non-429 exception into HTTP
503 (fail closed). -/
def feedback_rate_gate : LimiterOutcome → GateResult
  | LimiterOutcome.unavailable => GateResult.serviceUnavailable
  | LimiterOutcome.failure => GateResult.serviceUnavailable
  | LimiterOutcome.noData => GateResult.serviceUnavailable
  | LimiterOutcome.result b =>
    if b then GateResult.allowed else GateResult.tooManyRequests

/-- A gate treats backend unavailability and limiter errors as allowed. -/
def failsOpen (g : LimiterOutcome → GateResult) : Prop :=
  g LimiterOutcome.unavailable = GateResult.allowed ∧
    g LimiterOutcome.failure = GateResult.allowed

/-- A gate blocks with a 503-equivalent on backend unavailability and
limiter errors. -/
def failsClosed (g : LimiterOutcome → GateResult) : Prop :=
  g LimiterOutcome.unavailable = GateResult.serviceUnavailable ∧
    g LimiterOutcome.failure = GateResult.serviceUnavailable

/-- The rate-limited endpoint groups named by the failure-policy claim:
analysis/influencer/trust/admin checks, the vote limiter, the submission
limiter and the feedback limiter. -/
def endpointGates : List (LimiterOutcome → GateResult) :=
  [core_check_rate_limit, vote_rate_gate, submission_rate_gate,
    feedback_rate_gate]

/-- C4 counterexample: it is not the case that one failure policy is applied
uniformly — the endpoint gates neither all fail open nor all fail closed,
because the analysis/admin limiter allows on an unavailable backend while
the feedback limiter answers 503. -/
theorem c4_not_uniform :
    ¬ ((∀ g ∈ endpointGates, failsOpen g) ∨
        (∀ g ∈ endpointGates, failsClosed g)) := by
  rintro (h | h)
  · have hf := h feedback_rate_gate (by simp [endpointGates])
    cases hf.1
  · have hc := h core_check_rate_limit (by simp [endpointGates])
    cases hc.1

/-- C4 (amended): the failure policy is mixed, not uniform: the
analysis/influencer/trust/admin limiter, the vote limiter and the submission
limiter fail open (unavailability and errors are treated as allowed), while
the feedback limiter — and the superseded `backend/rate_limiter.py` variant —
fail closed with a 503-equivalent. -/
theorem c4_mixed_policies :
    failsOpen core_check_rate_limit ∧ failsOpen vote_rate_gate ∧
    failsOpen submission_rate_gate ∧ failsClosed feedback_rate_gate ∧
    failsClosed legacy_check_rate_limit :=
  ⟨⟨rfl, rfl⟩, ⟨rfl, rfl⟩, ⟨rfl, rfl⟩, ⟨rfl, rfl⟩, ⟨rfl, rfl⟩⟩

/-! ### Submission creation and duplicate checking — routes.py lines
792-831, submissions.py lines 47-118 -/

/-- The pydantic `normalize_handle` validator of
`InfluencerSubmissionRequest` (schemas.py lines 303-307):
`v.strip().lstrip("@")`. -/
def request_normalize_handle (h : String) : String :=
  strip_at (trim_str h)

/-- Modelled from the spec: the body of the Postgres RPC
`check_duplicate_submission` invoked by `check_duplicate_submission`
(submissions.py lines 47-73) is not part of the repository. Per the spec,
creation "rejects (ConflictError) if a non-terminal submission for the same
normalized `(handle, platform)` already exists", with handles normalized by
lowercasing and stripping the leading `@`. Returns `true` when the
submission is allowed (no duplicate). -/
def check_duplicate_submission_rpc (subs : List Submission)
    (handle platform : String) : Bool :=
  !(subs.any (fun s =>
    (normalize_handle s.handle == normalize_handle handle) &&
      (s.platform == platform) &&
      !(decide (s.status = Status.approved)) &&
      !(decide (s.status = Status.rejected))))

/-- Errors surfaced by the create-submission route. -/
inductive SubmitErr where
  | rateLimited
  | duplicate
deriving DecidableEq, Repr

/-- Embedding of the `submit_influencer` route (routes.py lines 792-831)
over the submissions table: the request handle has already passed the
pydantic validator; the route checks the submission rate limit, then the
duplicate RPC, and only then inserts a `pending` row via
`create_influencer_submission` (which stores `handle.lstrip("@")`). -/
def submit_influencer (subs : List Submission) (rawHandle platform : String)
    (reason : Option String) (rateOk : Bool) (idv ipHash : String)
    (now : ℤ) : Except SubmitErr Submission × List Submission :=
  let handle := request_normalize_handle rawHandle
  if rateOk = false then
    (Except.error SubmitErr.rateLimited, subs)
  else if check_duplicate_submission_rpc subs handle platform = false then
    (Except.error SubmitErr.duplicate, subs)
  else
    let row : Submission :=
      { id := idv
        handle := strip_at handle
        platform := platform
        reason := reason
        status := Status.pending
        analysis_data := none
        trust_score := none
        analysis_error := none
        analysis_completed_at := none
        reviewed_by := none
        reviewed_at := none
        admin_notes := none
        rejection_reason := none
        submitter_ip_hash := ipHash
        created_at := now
        updated_at := now }
    (Except.ok row, subs ++ [row])

lemma dropWhile_idem {p : Char → Bool} (l : List Char) :
    (l.dropWhile p).dropWhile p = l.dropWhile p := by
  induction l with
  | nil => rfl
  | cons c cs ih =>
    by_cases hc : p c
    · simp [List.dropWhile_cons, hc, ih]
    · simp [List.dropWhile_cons, hc]

lemma strip_at_idem (s : String) : strip_at (strip_at s) = strip_at s := by
  unfold strip_at
  rw [show (String.mk (s.toList.dropWhile (fun c => c == '@'))).toList
      = s.toList.dropWhile (fun c => c == '@') from rfl]
  rw [dropWhile_idem]

/-- C8: a rate-allowed create call conflicts (HTTP 409) and inserts nothing
whenever the table already holds a non-terminal submission for the same
platform with an identically normalized handle; consequently, after a first
create call succeeds, a second rate-allowed call whose handle normalizes to
the same value — e.g. spelled with a leading `@` or different case — is
rejected with ConflictError and leaves the table unchanged. -/
theorem c8_duplicate_submission_conflict :
    (∀ (subs : List Submission) (h platform : String) (r : Option String)
        (idv ip : String) (t : ℤ) (s : Submission), s ∈ subs →
      normalize_handle s.handle
          = normalize_handle (request_normalize_handle h) →
      s.platform = platform →
      s.status ≠ Status.approved → s.status ≠ Status.rejected →
      submit_influencer subs h platform r true idv ip t
        = (Except.error SubmitErr.duplicate, subs)) ∧
    (∀ (subs : List Submission) (h1 h2 platform : String)
        (r1 r2 : Option String) (id1 id2 ip1 ip2 : String) (t1 t2 : ℤ),
      normalize_handle (request_normalize_handle h1)
          = normalize_handle (request_normalize_handle h2) →
      (∃ s, (submit_influencer subs h1 platform r1 true id1 ip1 t1).1
          = Except.ok s) →
      submit_influencer
          (submit_influencer subs h1 platform r1 true id1 ip1 t1).2
          h2 platform r2 true id2 ip2 t2
        = (Except.error SubmitErr.duplicate,
            (submit_influencer subs h1 platform r1 true id1 ip1 t1).2)) := by
  have general : ∀ (subs : List Submission) (h platform : String)
      (r : Option String) (idv ip : String) (t : ℤ) (s : Submission),
      s ∈ subs →
      normalize_handle s.handle
          = normalize_handle (request_normalize_handle h) →
      s.platform = platform →
      s.status ≠ Status.approved → s.status ≠ Status.rejected →
      submit_influencer subs h platform r true idv ip t
        = (Except.error SubmitErr.duplicate, subs) := by
    intro subs h platform r idv ip t s hmem hnorm hplat hst1 hst2
    have hdup : check_duplicate_submission_rpc subs
        (request_normalize_handle h) platform = false := by
      unfold check_duplicate_submission_rpc
      rw [Bool.not_eq_false']
      apply List.any_eq_true.mpr
      refine ⟨s, hmem, ?_⟩
      simp only [Bool.and_eq_true, beq_iff_eq, Bool.not_eq_true',
        decide_eq_false_iff_not]
      exact ⟨⟨⟨hnorm, hplat⟩, hst1⟩, hst2⟩
    unfold submit_influencer
    simp only [hdup, if_true, if_false]
    rfl
  refine ⟨general, ?_⟩
  intro subs h1 h2 platform r1 r2 id1 id2 ip1 ip2 t1 t2 hnorm hok
  obtain ⟨sub1, hsub1⟩ := hok
  by_cases hdup1 : check_duplicate_submission_rpc subs
      (request_normalize_handle h1) platform = false
  · exfalso
    unfold submit_influencer at hsub1
    simp only [hdup1, if_true, if_false] at hsub1
    cases hsub1
  · have hdup1' : check_duplicate_submission_rpc subs
        (request_normalize_handle h1) platform = true :=
      eq_true_of_ne_false hdup1
    have hsnd : (submit_influencer subs h1 platform r1 true id1 ip1 t1).2
        = subs ++ [{
            id := id1
            handle := strip_at (request_normalize_handle h1)
            platform := platform
            reason := r1
            status := Status.pending
            analysis_data := none
            trust_score := none
            analysis_error := none
            analysis_completed_at := none
            reviewed_by := none
            reviewed_at := none
            admin_notes := none
            rejection_reason := none
            submitter_ip_hash := ip1
            created_at := t1
            updated_at := t1 }] := by
      unfold submit_influencer
      simp only [hdup1', if_false]
      rfl
    rw [hsnd]
    set row1 : Submission := {
        id := id1
        handle := strip_at (request_normalize_handle h1)
        platform := platform
        reason := r1
        status := Status.pending
        analysis_data := none
        trust_score := none
        analysis_error := none
        analysis_completed_at := none
        reviewed_by := none
        reviewed_at := none
        admin_notes := none
        rejection_reason := none
        submitter_ip_hash := ip1
        created_at := t1
        updated_at := t1 } with hrow1
    apply general (subs ++ [row1]) h2 platform r2 id2 ip2 t2 row1
      (List.mem_append_right _ (by simp))
    · show normalize_handle row1.handle
        = normalize_handle (request_normalize_handle h2)
      rw [hrow1]
      show normalize_handle (strip_at (request_normalize_handle h1))
        = normalize_handle (request_normalize_handle h2)
      rw [show strip_at (request_normalize_handle h1)
          = request_normalize_handle h1 from strip_at_idem (trim_str h1)]
      exact hnorm
    · rw [hrow1]
    · rw [hrow1]
      intro hcon
      cases hcon
    · rw [hrow1]
      intro hcon
      cases hcon

/-- Witness for C8 at concrete inputs: first create for handle spelled
`"@Alice"`, second create for `"alice"` on the same platform. -/
theorem c8_duplicate_submission_conflict_witness :
    submit_influencer
        (submit_influencer [] "@Alice" "instagram" none true
          "id1" "ip1" 0).2
        "alice" "instagram" none true "id2" "ip2" 1
      = (Except.error SubmitErr.duplicate,
          (submit_influencer [] "@Alice" "instagram" none true
            "id1" "ip1" 0).2) :=
  c8_duplicate_submission_conflict.2 [] "@Alice" "alice" "instagram"
    none none "id1" "id2" "ip1" "ip2" 0 1 (by decide) ⟨_, rfl⟩

end Perseval
